import Mathlib

/-!
Shallow embedding of the zmk-auto-layer input processor
(src/src/mouse/input_processor_auto_layer.c, plus the near-duplicate
variant implementation in src/unnamed/part_000).

The controller state is the C struct processor_auto_layer_data_t
(resp. struct auto_layer_state): a target layer, an active flag and the
last qualifying tap timestamp.  The configuration is
processor_auto_layer_config_t (resp. struct auto_layer_config).

Side effects on external collaborators (the layer activation and
deactivation primitives and the per-layer delayed-work timer) are made
explicit as fields of each entry point's result.  Timestamps are int64
and the idle threshold int32 in C; values stay far from the 64-bit
range in this driver, so they are modelled as unbounded Int.  The
uint8 truncation of the toggle_layer field and the size_t wraparound
of the binary search indices are modelled exactly, with explicit mod.
-/

namespace AutoLayer

/-- processor_auto_layer_config_t / struct auto_layer_config:
require_prior_idle_ms is int32, excluded_positions an array of uint32
of length num_positions (the list carries its own length). -/
structure Config where
  require_prior_idle_ms : Int
  excluded_positions : List Nat
  deriving DecidableEq

/-- processor_auto_layer_data_t / struct auto_layer_state:
toggle_layer is uint8, last_tapped_timestamp int64. -/
structure Data where
  toggle_layer : Nat
  is_active : Bool
  last_tapped_timestamp : Int
  deriving DecidableEq

/-- The loop body of is_position_excluded in
input_processor_auto_layer.c (and the small-array linear branch of
position_is_excluded in the variant). -/
def is_position_excluded_loop (positions : List Nat) (position : Nat) : Bool :=
  match positions with
  | [] => false
  | p :: rest => if p = position then true else is_position_excluded_loop rest position

/-- is_position_excluded (input_processor_auto_layer.c): linear scan
over config->excluded_positions. -/
def is_position_excluded (config : Config) (position : Nat) : Bool :=
  is_position_excluded_loop config.excluded_positions position

/-- should_quick_tap: (data->last_tapped_timestamp +
config->require_prior_idle_ms) > timestamp. -/
def should_quick_tap (config : Config) (data : Data) (timestamp : Int) : Bool :=
  decide (data.last_tapped_timestamp + config.require_prior_idle_ms > timestamp)

/-- Result of an entry point that can call the layer deactivation
primitive: the updated state, and the argument of the
zmk_keymap_layer_deactivate call when one was made. -/
structure PosResult where
  data : Data
  deactivated : Option Nat
  deriving DecidableEq

/-- handle_position_state_changed: on a key-down (ev->state) while
is_active at a non-excluded position, clear is_active and deactivate
data->toggle_layer. -/
def handle_position_state_changed (cfg : Config) (data : Data)
    (position : Nat) (state : Bool) : PosResult :=
  if state && data.is_active && !(is_position_excluded cfg position) then
    { data := { data with is_active := false }, deactivated := some data.toggle_layer }
  else
    { data := data, deactivated := none }

/-- handle_keycode_state_changed: a key-down (ev->state) of a
non-modifier keycode stores ev->timestamp.  The ZMK helper is_mod is
external to this repository, so it is a parameter. -/
def handle_keycode_state_changed (ismod : Nat → Nat → Bool) (data : Data)
    (usage_page keycode : Nat) (state : Bool) (timestamp : Int) : Data :=
  if state && !(ismod usage_page keycode) then
    { data with last_tapped_timestamp := timestamp }
  else data

/-- layer_disable_cb (input_processor_auto_layer.c): if the platform
reports the layer active (zmk_keymap_layer_active, an external query,
passed as a Bool), clear is_active and deactivate layer_index. -/
def layer_disable_cb (data : Data) (layer_index : Nat)
    (platform_layer_active : Bool) : PosResult :=
  if platform_layer_active then
    { data := { data with is_active := false }, deactivated := some layer_index }
  else
    { data := data, deactivated := none }

def EINVAL : Int := 22

/-- Result of auto_layer_handle_event: the C return value, the updated
state, the argument of the zmk_keymap_layer_activate call when one was
made, likewise for zmk_keymap_layer_deactivate (the function contains
no such call, so this field is always none), and the
k_work_reschedule request (layer index, delay in ms) when one was
issued. -/
structure TrigResult where
  ret : Int
  data : Data
  activated : Option Nat
  deactivated : Option Nat
  timer : Option (Nat × Nat)
  deriving DecidableEq

/-- auto_layer_handle_event: param1 is the target layer (uint32),
param2 the auto-release delay in ms (uint32), now the value of
k_uptime_get().  max_layers stands for ZMK_KEYMAP_LAYERS_LEN.  The
store data->toggle_layer = param1 truncates to uint8. -/
def auto_layer_handle_event (max_layers : Nat) (cfg : Config) (data : Data)
    (param1 param2 : Nat) (now : Int) : TrigResult :=
  if param1 ≥ max_layers then
    { ret := -EINVAL, data := data, activated := none, deactivated := none, timer := none }
  else
    let data1 : Data := { data with toggle_layer := param1 % 256 }
    if !data1.is_active && !(should_quick_tap cfg data1 now) then
      let data2 : Data := { data1 with is_active := true }
      { ret := 0, data := data2, activated := some data2.toggle_layer, deactivated := none,
        timer := if param2 > 0 then some (param1, param2) else none }
    else
      { ret := 0, data := data1, activated := none, deactivated := none,
        timer := if param2 > 0 then some (param1, param2) else none }

/-- auto_layer_init: is_active = false, last_tapped_timestamp = 0
(toggle_layer is zero-initialized static data). -/
def auto_layer_init : Data :=
  { toggle_layer := 0, is_active := false, last_tapped_timestamp := 0 }

/-- Effect of one k_work_reschedule request on the pending-timer map
(layer index to remaining delay): the scheduler collaborator of the
spec.  Rescheduling replaces the pending entry for that layer; no
request leaves the map untouched. -/
def apply_timer (sched : Nat → Option Nat) :
    Option (Nat × Nat) → (Nat → Option Nat)
  | none => sched
  | some (layer, delay) => fun i => if i = layer then some delay else sched i

/-!
Variant implementation (src/unnamed/part_000).  Its struct
auto_layer_state has the same three fields as Data above, so Data is
reused.
-/

/-- Result of update_layer_state in the variant: the updated state and
the activation or deactivation call it issued, if any. -/
structure UpdateResult where
  state : Data
  activated : Option Nat
  deactivated : Option Nat
  deriving DecidableEq

/-- update_layer_state (part_000): early-return when is_active already
equals the requested value, else flip the flag and call the matching
layer primitive on state->toggle_layer. -/
def update_layer_state (state : Data) (activate : Bool) : UpdateResult :=
  if state.is_active == activate then
    { state := state, activated := none, deactivated := none }
  else
    let state1 : Data := { state with is_active := activate }
    if activate then
      { state := state1, activated := some state1.toggle_layer, deactivated := none }
    else
      { state := state1, activated := none, deactivated := some state1.toggle_layer }

/-- layer_disable_callback (part_000): if the platform reports
layer_index active, call update_layer_state(state, false). -/
def layer_disable_callback (state : Data) (layer_index : Nat)
    (platform_layer_active : Bool) : UpdateResult :=
  if platform_layer_active then
    update_layer_state state false
  else
    { state := state, activated := none, deactivated := none }

/-- SIZE_MAX + 1: modulus of the C size_t arithmetic in the binary
search of part_000. -/
def SIZE_WRAP : Nat := 2 ^ 64

def SMALL_ARRAY_THRESHOLD : Nat := 8

/-- The while loop of the binary-search branch of position_is_excluded
(part_000), with size_t wraparound modelled exactly: right = mid - 1
is computed mod 2^64, so it wraps to SIZE_MAX when mid = 0.  A read of
excluded_positions outside its bounds is undefined behaviour in C and
yields none here.  The fuel argument bounds the number of iterations;
a terminating C run needs at most about log2 of the interval width
plus a couple of wrap steps, far below the fuel supplied by
position_is_excluded, and running out of fuel (divergence) also yields
none. -/
def bsearch_loop (positions : List Nat) (position : Nat)
    (left right : Nat) : Nat → Option Bool
  | 0 => none
  | fuel + 1 =>
    if left ≤ right then
      let mid := (left + right) / 2
      match positions[mid]? with
      | none => none
      | some mid_val =>
        if mid_val = position then some true
        else if mid_val < position then
          bsearch_loop positions position ((mid + 1) % SIZE_WRAP) right fuel
        else
          bsearch_loop positions position left ((mid + (SIZE_WRAP - 1)) % SIZE_WRAP) fuel
    else
      some false

/-- position_is_excluded (part_000): empty configuration reports not
excluded; more than SMALL_ARRAY_THRESHOLD entries take the binary
search; small arrays take the linear scan (the same loop as
is_position_excluded of the other file). -/
def position_is_excluded (config : Config) (position : Nat) : Option Bool :=
  if config.excluded_positions.isEmpty then some false
  else if config.excluded_positions.length > SMALL_ARRAY_THRESHOLD then
    bsearch_loop config.excluded_positions position 0
      (config.excluded_positions.length - 1) (config.excluded_positions.length + 128)
  else
    some (is_position_excluded_loop config.excluded_positions position)

/-!
Entry-point sequencing, for the monotonicity invariant: one Event per
invocation of an entry point of the driver, with the values read from
the platform (event fields, k_uptime_get, zmk_keymap_layer_active)
carried as data.
-/

inductive Event where
  | position (p : Nat) (state : Bool)
  | keycode (usage_page keycode : Nat) (state : Bool) (timestamp : Int)
  | timer (layer_index : Nat) (platform_layer_active : Bool)
  | trigger (param1 param2 : Nat) (now : Int)
  deriving DecidableEq

/-- State transition of one entry-point invocation. -/
def step (ismod : Nat → Nat → Bool) (max_layers : Nat) (cfg : Config)
    (data : Data) : Event → Data
  | .position p st => (handle_position_state_changed cfg data p st).data
  | .keycode up kc st ts => handle_keycode_state_changed ismod data up kc st ts
  | .timer li pa => (layer_disable_cb data li pa).data
  | .trigger p1 p2 now => (auto_layer_handle_event max_layers cfg data p1 p2 now).data

/-- State after a sequence of entry-point invocations. -/
def run (ismod : Nat → Nat → Bool) (max_layers : Nat) (cfg : Config)
    (data : Data) : List Event → Data
  | [] => data
  | e :: rest => run ismod max_layers cfg (step ismod max_layers cfg data e) rest

/-- Timestamps of the qualifying events of a sequence: key-down
keycode events of non-modifier keycodes, the ones that store
last_tapped_timestamp. -/
def qualifyingTimes (ismod : Nat → Nat → Bool) : List Event → List Int
  | [] => []
  | Event.keycode up kc true ts :: rest =>
      if ismod up kc then qualifyingTimes ismod rest
      else ts :: qualifyingTimes ismod rest
  | _ :: rest => qualifyingTimes ismod rest

/-- The list is non-decreasing and its head, if any, is at least t. -/
def monoFrom (t : Int) : List Int → Bool
  | [] => true
  | x :: rest => decide (t ≤ x) && monoFrom x rest

/-- An is_mod instance that classifies nothing as a modifier, for
concrete evaluations. -/
def ismod_none : Nat → Nat → Bool := fun _ _ => false

/-!
Claim theorems.
-/

/-- Claim C1, counterexample to the claim as stated: with idle
threshold T = 150 and last qualifying tap at t0 = 1000, a trigger
delivered at now = 1150 lies in the interval (t0, t0 + T], yet the
code does activate the layer there, contradicting the clause that a
trigger anywhere in (t0, t0 + T] does not activate. -/
theorem C1_counterexample :
    ((1000 : Int) < 1150 ∧ (1150 : Int) ≤ 1000 + 150) ∧
    (auto_layer_handle_event 8 ⟨150, []⟩ ⟨0, false, 1000⟩ 2 300 1150).activated = some 2 ∧
    (auto_layer_handle_event 8 ⟨150, []⟩ ⟨0, false, 1000⟩ 2 300 1150).data.is_active = true := by
  decide

/-- Claim C1 (amended): the quick-tap guard comparison is strict, so
for a valid target layer and an idle controller, the trigger activates
the layer exactly when now is at least last_tap_time plus
idle_threshold; in particular a trigger strictly inside
(t0, t0 + T) is suppressed and one at exactly t0 + T or later
activates. -/
theorem C1_quick_tap_boundary (max_layers : Nat) (cfg : Config) (data : Data)
    (param1 param2 : Nat) (now : Int)
    (hvalid : param1 < max_layers) (hidle : data.is_active = false) :
    ((auto_layer_handle_event max_layers cfg data param1 param2 now).activated.isSome = true) ↔
      data.last_tapped_timestamp + cfg.require_prior_idle_ms ≤ now := by
  simp only [auto_layer_handle_event]
  rw [if_neg (not_le.mpr hvalid)]
  simp only [should_quick_tap, hidle, Bool.not_false, Bool.true_and]
  by_cases hg : data.last_tapped_timestamp + cfg.require_prior_idle_ms > now
  · have hng : ¬(data.last_tapped_timestamp + cfg.require_prior_idle_ms ≤ now) := by omega
    simp [hg, hng]
  · have hle : data.last_tapped_timestamp + cfg.require_prior_idle_ms ≤ now := by omega
    simp [hg, hle]

/-- Claim C1 witness: the amended theorem applied at the concrete
scenario of the spec (T = 150, last tap 1000, trigger at 1150). -/
theorem C1_quick_tap_boundary_witness :
    ((auto_layer_handle_event 8 ⟨150, []⟩ ⟨0, false, 1000⟩ 2 300 1150).activated.isSome = true) ↔
      (1000 : Int) + 150 ≤ 1150 :=
  C1_quick_tap_boundary 8 ⟨150, []⟩ ⟨0, false, 1000⟩ 2 300 1150 (by decide) rfl

/-- Claim C2 (confirmed): while active, a key-down at a non-excluded
position deactivates the target layer and clears the active flag; a
key-down at an excluded position changes nothing; a key-up changes
nothing; while idle, position events change nothing. -/
theorem C2_position_rule (cfg : Config) (data : Data) (p : Nat) :
    (data.is_active = true → is_position_excluded cfg p = false →
      handle_position_state_changed cfg data p true =
        { data := { data with is_active := false }, deactivated := some data.toggle_layer }) ∧
    (is_position_excluded cfg p = true →
      handle_position_state_changed cfg data p true = { data := data, deactivated := none }) ∧
    (handle_position_state_changed cfg data p false = { data := data, deactivated := none }) ∧
    (data.is_active = false →
      handle_position_state_changed cfg data p true = { data := data, deactivated := none }) := by
  refine ⟨fun ha hex => ?_, fun hex => ?_, ?_, fun ha => ?_⟩ <;>
    simp [handle_position_state_changed, *]

/-- Claim C2 witness: the rule applied with exclusion set containing
positions 3 and 4, an active controller targeting layer 2, at the
non-excluded position 5, the excluded position 4, a key-up, and an
idle controller. -/
theorem C2_position_rule_witness :
    (handle_position_state_changed ⟨150, [3, 4]⟩ ⟨2, true, 0⟩ 5 true =
      { data := ⟨2, false, 0⟩, deactivated := some 2 }) ∧
    (handle_position_state_changed ⟨150, [3, 4]⟩ ⟨2, true, 0⟩ 4 true =
      { data := ⟨2, true, 0⟩, deactivated := none }) ∧
    (handle_position_state_changed ⟨150, [3, 4]⟩ ⟨2, true, 0⟩ 5 false =
      { data := ⟨2, true, 0⟩, deactivated := none }) ∧
    (handle_position_state_changed ⟨150, [3, 4]⟩ ⟨2, false, 0⟩ 5 true =
      { data := ⟨2, false, 0⟩, deactivated := none }) :=
  ⟨(C2_position_rule ⟨150, [3, 4]⟩ ⟨2, true, 0⟩ 5).1 rfl (by decide),
   (C2_position_rule ⟨150, [3, 4]⟩ ⟨2, true, 0⟩ 4).2.1 (by decide),
   (C2_position_rule ⟨150, [3, 4]⟩ ⟨2, true, 0⟩ 5).2.2.1,
   (C2_position_rule ⟨150, [3, 4]⟩ ⟨2, false, 0⟩ 5).2.2.2 rfl⟩

/-- Claim C3, counterexample to the claim as stated: with the
controller's own active flag false but the platform reporting layer 2
active, layer_disable_cb of input_processor_auto_layer.c still issues
a deactivation call for layer 2, so deactivation does not require the
controller's active flag to be true. -/
theorem C3_counterexample :
    (⟨2, false, 0⟩ : Data).is_active = false ∧
    (layer_disable_cb ⟨2, false, 0⟩ 2 true).deactivated = some 2 := by
  decide

/-- Claim C3 (amended): in the primary implementation
(layer_disable_cb), the timer callback deactivates the layer and
clears the active flag exactly when the platform reports the layer
active, regardless of the controller's own flag, and is a complete
no-op when the layer is already deactivated; the variant
implementation (layer_disable_callback via update_layer_state)
additionally requires the controller's own active flag, matching the
claim as stated, and is a no-op when either condition fails. -/
theorem C3_deactivation_callback (data : Data) (li : Nat) (pa : Bool) :
    (pa = false → layer_disable_cb data li pa = { data := data, deactivated := none }) ∧
    ((layer_disable_cb data li pa).deactivated.isSome = true ↔ pa = true) ∧
    ((layer_disable_callback data li pa).deactivated.isSome = true ↔
      (pa = true ∧ data.is_active = true)) ∧
    (pa = false →
      layer_disable_callback data li pa =
        { state := data, activated := none, deactivated := none }) ∧
    (pa = true → data.is_active = false →
      layer_disable_callback data li pa =
        { state := data, activated := none, deactivated := none }) := by
  refine ⟨fun hpa => ?_, ?_, ?_, fun hpa => ?_, fun hpa ha => ?_⟩ <;>
    cases pa <;>
    simp_all [layer_disable_cb, layer_disable_callback, update_layer_state] <;>
    cases h : data.is_active <;> simp_all

/-- Claim C3 witness: the amended theorem applied with controller
state targeting layer 2 with the active flag set, layer index 2, and
the platform reporting the layer inactive (the already-deactivated
race case: the callback is a no-op in both implementations). -/
theorem C3_deactivation_callback_witness :
    (layer_disable_cb ⟨2, true, 0⟩ 2 false = { data := ⟨2, true, 0⟩, deactivated := none }) ∧
    ((layer_disable_cb ⟨2, true, 0⟩ 2 false).deactivated.isSome = true ↔ false = true) ∧
    ((layer_disable_callback ⟨2, true, 0⟩ 2 false).deactivated.isSome = true ↔
      (false = true ∧ (⟨2, true, 0⟩ : Data).is_active = true)) := by
  have h := C3_deactivation_callback ⟨2, true, 0⟩ 2 false
  exact ⟨h.1 rfl, h.2.1, h.2.2.1⟩

/-- Claim C4 (confirmed): a trigger with an out-of-range target layer
returns -EINVAL and leaves the controller state, the activation and
deactivation primitives, and the timer schedule untouched; moreover
the call succeeds (returns 0) exactly when the target layer is in
range, so this is the only reportable error. -/
theorem C4_invalid_argument (max_layers : Nat) (cfg : Config) (data : Data)
    (param1 param2 : Nat) (now : Int) :
    (param1 ≥ max_layers →
      auto_layer_handle_event max_layers cfg data param1 param2 now =
        { ret := -EINVAL, data := data, activated := none, deactivated := none,
          timer := none }) ∧
    ((auto_layer_handle_event max_layers cfg data param1 param2 now).ret = 0 ↔
      param1 < max_layers) := by
  constructor
  · intro h
    simp [auto_layer_handle_event, h]
  · simp only [auto_layer_handle_event]
    split_ifs <;> simp [EINVAL] <;> omega

/-- Claim C4 witness: with max layer count 8, a trigger for layer 9
fails with -EINVAL and no side effect, and a trigger for layer 9
never reports success. -/
theorem C4_invalid_argument_witness :
    (auto_layer_handle_event 8 ⟨150, []⟩ ⟨0, false, 0⟩ 9 500 2000 =
      { ret := -EINVAL, data := ⟨0, false, 0⟩, activated := none, deactivated := none,
        timer := none }) ∧
    ((auto_layer_handle_event 8 ⟨150, []⟩ ⟨0, false, 0⟩ 9 500 2000).ret = 0 ↔ 9 < 8) :=
  ⟨(C4_invalid_argument 8 ⟨150, []⟩ ⟨0, false, 0⟩ 9 500 2000).1 (by decide),
   (C4_invalid_argument 8 ⟨150, []⟩ ⟨0, false, 0⟩ 9 500 2000).2⟩

/-- Claim C5, evaluation at the failing input: on the sorted
nine-entry exclusion list 10..90 (nine entries exceeds
SMALL_ARRAY_THRESHOLD = 8, so the variant takes the binary-search
path), probing position 5 makes the linear scan return false while the
binary search underflows its size_t right bound at mid = 0 and then
reads far outside the array, which is undefined behaviour (modelled as
none) rather than the same boolean result.  The empty configuration
does report not excluded on both paths. -/
theorem C5_binary_search_bug :
    is_position_excluded ⟨0, [10, 20, 30, 40, 50, 60, 70, 80, 90]⟩ 5 = false ∧
    position_is_excluded ⟨0, [10, 20, 30, 40, 50, 60, 70, 80, 90]⟩ 5 = none ∧
    position_is_excluded ⟨0, [10, 20, 30, 40, 50, 60, 70, 80, 90]⟩ 30 = some true ∧
    position_is_excluded ⟨0, []⟩ 5 = some false ∧
    is_position_excluded ⟨0, []⟩ 5 = false := by
  decide

/-- Claim C6 (confirmed): when the quick-tap guard applies to a valid
trigger, the active flag is unchanged and no activation call is made,
yet the deferred deactivation timer for the target layer is still
rescheduled whenever the auto-release delay is positive (and left
alone when it is zero). -/
theorem C6_suppressed_still_arms (max_layers : Nat) (cfg : Config) (data : Data)
    (param1 param2 : Nat) (now : Int)
    (hvalid : param1 < max_layers)
    (hguard : should_quick_tap cfg data now = true) :
    (auto_layer_handle_event max_layers cfg data param1 param2 now).data.is_active =
      data.is_active ∧
    (auto_layer_handle_event max_layers cfg data param1 param2 now).activated = none ∧
    (auto_layer_handle_event max_layers cfg data param1 param2 now).timer =
      (if param2 > 0 then some (param1, param2) else none) := by
  have hg1 : should_quick_tap cfg { data with toggle_layer := param1 % 256 } now = true :=
    hguard
  simp only [auto_layer_handle_event]
  rw [if_neg (not_le.mpr hvalid)]
  simp [hg1]

/-- Claim C6 witness: guard applies (last tap 1000, T = 150, trigger
at 1100): no activation, flag unchanged, and the 300 ms timer for
layer 2 is still armed. -/
theorem C6_suppressed_still_arms_witness :
    (auto_layer_handle_event 8 ⟨150, []⟩ ⟨0, false, 1000⟩ 2 300 1100).data.is_active =
      (⟨0, false, 1000⟩ : Data).is_active ∧
    (auto_layer_handle_event 8 ⟨150, []⟩ ⟨0, false, 1000⟩ 2 300 1100).activated = none ∧
    (auto_layer_handle_event 8 ⟨150, []⟩ ⟨0, false, 1000⟩ 2 300 1100).timer =
      (if 300 > 0 then some (2, 300) else none) :=
  C6_suppressed_still_arms 8 ⟨150, []⟩ ⟨0, false, 1000⟩ 2 300 1100 (by decide) (by decide)

/-- Claim C7 (confirmed): a trigger with auto-release delay zero
issues no timer request at all, so applying its (absent) request to
any pending-timer schedule leaves the schedule exactly as it was: a
pending timer armed by an earlier positive-delay trigger is not
cancelled and no new timer is armed. -/
theorem C7_zero_delay (max_layers : Nat) (cfg : Config) (data : Data)
    (param1 : Nat) (now : Int) (sched : Nat → Option Nat) :
    (auto_layer_handle_event max_layers cfg data param1 0 now).timer = none ∧
    apply_timer sched (auto_layer_handle_event max_layers cfg data param1 0 now).timer =
      sched := by
  have ht : (auto_layer_handle_event max_layers cfg data param1 0 now).timer = none := by
    simp only [auto_layer_handle_event]
    split_ifs <;> simp_all
  exact ⟨ht, by rw [ht]; rfl⟩

/-- Helper: the position handler never writes last_tapped_timestamp. -/
theorem pos_preserves_last_tapped (cfg : Config) (data : Data) (p : Nat) (st : Bool) :
    (handle_position_state_changed cfg data p st).data.last_tapped_timestamp =
      data.last_tapped_timestamp := by
  simp only [handle_position_state_changed]
  split <;> rfl

/-- Helper: the timer callback never writes last_tapped_timestamp. -/
theorem cb_preserves_last_tapped (data : Data) (li : Nat) (pa : Bool) :
    (layer_disable_cb data li pa).data.last_tapped_timestamp =
      data.last_tapped_timestamp := by
  simp only [layer_disable_cb]
  split <;> rfl

/-- Helper: the trigger entry point never writes last_tapped_timestamp. -/
theorem trig_preserves_last_tapped (max_layers : Nat) (cfg : Config) (data : Data)
    (p1 p2 : Nat) (now : Int) :
    (auto_layer_handle_event max_layers cfg data p1 p2 now).data.last_tapped_timestamp =
      data.last_tapped_timestamp := by
  simp only [auto_layer_handle_event]
  split_ifs <;> rfl

/-- Claim C8, counterexample to the claim as stated: the keycode
handler stores the event timestamp unconditionally, so a keycode
key-down carrying timestamp 5 delivered to a controller whose
last_tapped_timestamp is 10 moves the timestamp backwards. -/
theorem C8_counterexample :
    (⟨0, false, 10⟩ : Data).last_tapped_timestamp = 10 ∧
    (run ismod_none 8 ⟨150, []⟩ ⟨0, false, 10⟩
      [Event.keycode 7 4 true 5]).last_tapped_timestamp = 5 ∧
    (run ismod_none 8 ⟨150, []⟩ ⟨0, false, 10⟩
        [Event.keycode 7 4 true 5]).last_tapped_timestamp <
      (⟨0, false, 10⟩ : Data).last_tapped_timestamp := by
  decide

/-- Claim C8 (amended): provided the timestamps carried by the
qualifying (non-modifier key-down) keycode events of a sequence are
non-decreasing and start no earlier than the stored
last_tapped_timestamp — which holds when the platform stamps events
with its monotone uptime clock — last_tapped_timestamp is
monotonically non-decreasing across any sequence of entry-point
invocations; each non-keycode entry point leaves it unchanged. -/
theorem C8_last_tap_monotone (ismod : Nat → Nat → Bool) (max_layers : Nat)
    (cfg : Config) (data : Data) (evs : List Event)
    (h : monoFrom data.last_tapped_timestamp (qualifyingTimes ismod evs) = true) :
    data.last_tapped_timestamp ≤
      (run ismod max_layers cfg data evs).last_tapped_timestamp := by
  induction evs generalizing data with
  | nil => simp [run]
  | cons e rest ih =>
    show data.last_tapped_timestamp ≤
      (run ismod max_layers cfg (step ismod max_layers cfg data e) rest).last_tapped_timestamp
    cases e with
    | position p st =>
      have hkeep := pos_preserves_last_tapped cfg data p st
      have hrec := ih (step ismod max_layers cfg data (Event.position p st))
        (by simpa [step, hkeep] using h)
      simp only [step] at hrec ⊢
      omega
    | timer li pa =>
      have hkeep := cb_preserves_last_tapped data li pa
      have hrec := ih (step ismod max_layers cfg data (Event.timer li pa))
        (by simpa [step, hkeep] using h)
      simp only [step] at hrec ⊢
      omega
    | trigger p1 p2 now =>
      have hkeep := trig_preserves_last_tapped max_layers cfg data p1 p2 now
      have hrec := ih (step ismod max_layers cfg data (Event.trigger p1 p2 now))
        (by simpa [step, hkeep] using h)
      simp only [step] at hrec ⊢
      omega
    | keycode up kc st ts =>
      cases st with
      | false =>
        have hstep : step ismod max_layers cfg data (Event.keycode up kc false ts) = data := by
          simp [step, handle_keycode_state_changed]
        rw [hstep]
        exact ih data (by simpa [qualifyingTimes] using h)
      | true =>
        by_cases hm : ismod up kc = true
        · have hstep : step ismod max_layers cfg data (Event.keycode up kc true ts) = data := by
            simp [step, handle_keycode_state_changed, hm]
          rw [hstep]
          refine ih data ?_
          simpa [qualifyingTimes, hm] using h
        · have hstep : step ismod max_layers cfg data (Event.keycode up kc true ts) =
              { data with last_tapped_timestamp := ts } := by
            simp [step, handle_keycode_state_changed, hm]
          rw [hstep]
          have hq : qualifyingTimes ismod (Event.keycode up kc true ts :: rest) =
              ts :: qualifyingTimes ismod rest := by
            simp [qualifyingTimes, hm]
          rw [hq] at h
          simp only [monoFrom, Bool.and_eq_true, decide_eq_true_eq] at h
          have hrec := ih { data with last_tapped_timestamp := ts } h.2
          simp only at hrec
          omega

/-- Claim C8 witness: the amended theorem applied to a concrete
sequence with non-decreasing qualifying timestamps (taps at 20 and 30
starting from stored timestamp 10, with a position event and a trigger
interleaved). -/
theorem C8_last_tap_monotone_witness :
    (⟨0, false, 10⟩ : Data).last_tapped_timestamp ≤
      (run ismod_none 8 ⟨150, []⟩ ⟨0, false, 10⟩
        [Event.keycode 7 4 true 20, Event.position 5 true, Event.trigger 2 300 1000,
         Event.keycode 7 5 true 30]).last_tapped_timestamp :=
  C8_last_tap_monotone ismod_none 8 ⟨150, []⟩ ⟨0, false, 10⟩
    [Event.keycode 7 4 true 20, Event.position 5 true, Event.trigger 2 300 1000,
     Event.keycode 7 5 true 30] (by decide)

/-- Claim C9 (confirmed): a trigger with a valid target layer succeeds
and records that layer as the controller's current target (the store
truncates to uint8, the identity whenever the layer count is at most
256, as it is on the platform); when the controller is already active,
nothing else changes: the active flag and last tap timestamp are kept
and neither the activation nor the deactivation primitive is
invoked. -/
theorem C9_target_overwrite (max_layers : Nat) (cfg : Config) (data : Data)
    (param1 param2 : Nat) (now : Int)
    (hvalid : param1 < max_layers) (h256 : max_layers ≤ 256) :
    (auto_layer_handle_event max_layers cfg data param1 param2 now).ret = 0 ∧
    (auto_layer_handle_event max_layers cfg data param1 param2 now).data.toggle_layer =
      param1 ∧
    (data.is_active = true →
      (auto_layer_handle_event max_layers cfg data param1 param2 now).data =
        { data with toggle_layer := param1 } ∧
      (auto_layer_handle_event max_layers cfg data param1 param2 now).activated = none ∧
      (auto_layer_handle_event max_layers cfg data param1 param2 now).deactivated = none) := by
  have hmod : param1 % 256 = param1 := Nat.mod_eq_of_lt (lt_of_lt_of_le hvalid h256)
  simp only [auto_layer_handle_event]
  rw [if_neg (not_le.mpr hvalid)]
  by_cases ha : data.is_active = true
  · simp [ha, hmod]
  · simp only [Bool.not_eq_true] at ha
    simp [ha, hmod]
    split <;> simp_all

/-- Claim C9 witness: an already-active controller targeting layer 1
retriggered for layer 3: success, target overwritten to 3, no other
state change, and no layer primitive invoked. -/
theorem C9_target_overwrite_witness :
    (auto_layer_handle_event 8 ⟨150, []⟩ ⟨1, true, 0⟩ 3 500 2000).ret = 0 ∧
    (auto_layer_handle_event 8 ⟨150, []⟩ ⟨1, true, 0⟩ 3 500 2000).data.toggle_layer = 3 ∧
    ((⟨1, true, 0⟩ : Data).is_active = true →
      (auto_layer_handle_event 8 ⟨150, []⟩ ⟨1, true, 0⟩ 3 500 2000).data =
        { (⟨1, true, 0⟩ : Data) with toggle_layer := 3 } ∧
      (auto_layer_handle_event 8 ⟨150, []⟩ ⟨1, true, 0⟩ 3 500 2000).activated = none ∧
      (auto_layer_handle_event 8 ⟨150, []⟩ ⟨1, true, 0⟩ 3 500 2000).deactivated = none) :=
  C9_target_overwrite 8 ⟨150, []⟩ ⟨1, true, 0⟩ 3 500 2000 (by decide) (by decide)

/-- Claim C10 (confirmed): the keycode handler modifies at most
last_tapped_timestamp (its result is the input state or the input
state with only that field replaced, and the active flag and target
layer are unchanged — the handler issues no layer primitive call, as
its result carries no effect); the timestamp is written exactly on a
key-down of a non-modifier keycode and the state is untouched on a
key-up or a modifier. -/
theorem C10_keycode_frame (ismod : Nat → Nat → Bool) (data : Data)
    (up kc : Nat) (st : Bool) (ts : Int) :
    (handle_keycode_state_changed ismod data up kc st ts = data ∨
      handle_keycode_state_changed ismod data up kc st ts =
        { data with last_tapped_timestamp := ts }) ∧
    (handle_keycode_state_changed ismod data up kc st ts).is_active = data.is_active ∧
    (handle_keycode_state_changed ismod data up kc st ts).toggle_layer =
      data.toggle_layer ∧
    (st = true → ismod up kc = false →
      handle_keycode_state_changed ismod data up kc st ts =
        { data with last_tapped_timestamp := ts }) ∧
    ((st = false ∨ ismod up kc = true) →
      handle_keycode_state_changed ismod data up kc st ts = data) := by
  cases st <;> by_cases hm : ismod up kc = true <;>
    simp_all [handle_keycode_state_changed]

/-- Claim C10 witness: a non-modifier key-down at timestamp 42 writes
the timestamp and nothing else; a modifier key-down leaves the state
untouched. -/
theorem C10_keycode_frame_witness :
    (handle_keycode_state_changed ismod_none ⟨2, true, 7⟩ 7 4 true 42 =
        (⟨2, true, 7⟩ : Data) ∨
      handle_keycode_state_changed ismod_none ⟨2, true, 7⟩ 7 4 true 42 =
        { (⟨2, true, 7⟩ : Data) with last_tapped_timestamp := 42 }) ∧
    (handle_keycode_state_changed ismod_none ⟨2, true, 7⟩ 7 4 true 42).is_active =
      (⟨2, true, 7⟩ : Data).is_active ∧
    (handle_keycode_state_changed ismod_none ⟨2, true, 7⟩ 7 4 true 42).toggle_layer =
      (⟨2, true, 7⟩ : Data).toggle_layer ∧
    (handle_keycode_state_changed ismod_none ⟨2, true, 7⟩ 7 4 true 42 =
      { (⟨2, true, 7⟩ : Data) with last_tapped_timestamp := 42 }) :=
  have h := C10_keycode_frame ismod_none ⟨2, true, 7⟩ 7 4 true 42
  ⟨h.1, h.2.1, h.2.2.1, h.2.2.2.1 rfl rfl⟩

end AutoLayer
